import Mathlib

/-!
Shallow embedding of the GENAI AI-Response-Analyzer core
(QualityMetricsService, LLMService, and the generation/export routes),
with JavaScript numbers modelled as exact rationals, JS strings as Lean
strings, and the ambient sources of nondeterminism (Math.random, the
clock, the provider network) threaded as explicit parameters.
-/

/-- Two-decimal rounding as written throughout the source:
`Math.round(x * 100) / 100`.  JS `Math.round` rounds half toward
positive infinity, which is exactly Mathlib's `round` (`⌊x + 1/2⌋`). -/
def round2 (q : ℚ) : ℚ := ((round (q * 100) : ℤ) : ℚ) / 100

/-- Character-wise splitting of a character list at separators chosen by
`p`; pieces (possibly empty) between separators are returned in order.
Together with the empty-piece filters the source applies downstream this
models the JS `split` on a one-or-more-separators regex. -/
def splitChars (p : Char → Bool) : List Char → List (List Char)
  | [] => [[]]
  | c :: cs =>
    if p c then [] :: splitChars p cs
    else
      match splitChars p cs with
      | [] => [[c]]
      | piece :: rest => (c :: piece) :: rest

/-- JS `String.prototype.split` at a character predicate. -/
def splitPred (s : String) (p : Char → Bool) : List String :=
  (splitChars p s.data).map (fun cs => String.mk cs)

/-- JS `String.prototype.toLowerCase` (ASCII case folding). -/
def jsToLower (s : String) : String := String.mk (s.data.map Char.toLower)

/-- JS `String.prototype.trim`: drop whitespace at both ends. -/
def strTrim (s : String) : String :=
  String.mk (((s.data.dropWhile Char.isWhitespace).reverse.dropWhile Char.isWhitespace).reverse)

/-- Does `needle` occur at the head of `hay`? -/
def leadsWith : List Char → List Char → Bool
  | [], _ => true
  | _ :: _, [] => false
  | a :: as, b :: bs => a == b && leadsWith as bs

/-- Does `needle` occur contiguously anywhere in `hay`? -/
def containsSeq (needle : List Char) : List Char → Bool
  | [] => leadsWith needle []
  | b :: bs => leadsWith needle (b :: bs) || containsSeq needle bs

/-- JS `String.prototype.includes`: substring containment. -/
def jsIncludes (hay needle : String) : Bool := containsSeq needle.data hay.data

/-- `content.toLowerCase().split(/\s+/).filter(word => word.length > 0)` -/
def wordsOf (content : String) : List String :=
  (splitPred (jsToLower content) Char.isWhitespace).filter (fun w => w.length > 0)

/-- `s.toLowerCase().split(/\s+/).filter(word => word.length > 2)` -/
def wordsLen2 (s : String) : List String :=
  (splitPred (jsToLower s) Char.isWhitespace).filter (fun w => w.length > 2)

/-- `content.split(/[.!?]+/).filter(s => s.trim().length > 0)` -/
def sentencesOf (content : String) : List String :=
  (splitPred content (fun c => c == '.' || c == '!' || c == '?')).filter
    (fun s => (strTrim s).length > 0)

/-- `s.trim().split(/\s+/).length`: per-sentence word count (the source
trims first, so the regex split produces no empty pieces; filtering
empties after the character-wise split is therefore equivalent). -/
def sentenceWordCount (s : String) : ℕ :=
  ((splitPred (strTrim s) Char.isWhitespace).filter (fun w => w.length > 0)).length

/-- Per-metric result returned by each scorer.  The source additionally
carries two free-text presentation fields (`explanation`,
`calculation`); they are derived from the same numbers, are used for
display only, and are not modelled. -/
structure MetricDetails where
  score : ℚ
  factors : List (String × ℚ)
deriving Repr, DecidableEq

/-- QualityMetricsService.calculateCoherence: unique-word ratio scaled
by 1.2 and capped at 1, rounded to 2 decimals; empty content scores 0. -/
def calculateCoherence (content : String) : MetricDetails :=
  let words := wordsOf content
  let uniqueWords := words.dedup
  if words.length = 0 then
    { score := 0,
      factors := [("uniqueWords", 0), ("totalWords", 0), ("uniqueRatio", 0)] }
  else
    let uniqueRatio : ℚ := (uniqueWords.length : ℚ) / (words.length : ℚ)
    let score := min 1 (uniqueRatio * (12/10))
    { score := round2 score,
      factors := [("uniqueWords", (uniqueWords.length : ℚ)),
                  ("totalWords", (words.length : ℚ)),
                  ("uniqueRatio", uniqueRatio)] }

def questionWords : List String :=
  ["what", "how", "why", "when", "where", "who", "which", "explain", "describe", "tell"]

def answerIndicators : List String :=
  ["yes", "no", "because", "therefore", "however", "specifically", "for example"]

/-- QualityMetricsService.calculateCompleteness: distinct prompt/content
keyword overlap scaled by 1.5, +0.2 bonus (capped at 1) when a question
word and an answer indicator are both present, ×0.7 penalty for fewer
than 10 qualifying content words, rounded to 2 decimals. -/
def calculateCompleteness (content prompt : String) : MetricDetails :=
  let promptWords := wordsLen2 prompt
  let contentWords := wordsLen2 content
  let hasQuestion := questionWords.any (fun q => jsIncludes (jsToLower prompt) q)
  let hasDirectAnswer := answerIndicators.any (fun a => jsIncludes (jsToLower content) a)
  let overlap := (promptWords.dedup.filter (fun w => contentWords.contains w)).length
  let overlapRatio : ℚ :=
    if promptWords.length > 0 then (overlap : ℚ) / (promptWords.length : ℚ) else 0
  let score0 := min 1 (overlapRatio * (15/10))
  let score1 := if hasQuestion && hasDirectAnswer then min 1 (score0 + 2/10) else score0
  let score2 := if contentWords.length < 10 then score1 * (7/10) else score1
  { score := round2 score2,
    factors := [("keywordOverlap", (overlap : ℚ)),
                ("totalPromptWords", (promptWords.length : ℚ)),
                ("overlapRatio", overlapRatio),
                ("hasQuestion", if hasQuestion then 1 else 0),
                ("hasDirectAnswer", if hasDirectAnswer then 1 else 0),
                ("responseLength", (contentWords.length : ℚ))] }

/-- QualityMetricsService.calculateReadability: 0.7 × closeness of the
average sentence length to 17.5 words plus 0.3 × sentence-length
variance normalised by 50 (capped at 1), rounded to 2 decimals; content
with no sentences scores 0. -/
def calculateReadability (content : String) : MetricDetails :=
  let sentences := sentencesOf content
  if sentences.length = 0 then
    { score := 0, factors := [("sentenceCount", 0), ("averageLength", 0)] }
  else
    let sentenceLengths : List ℚ := sentences.map (fun s => (sentenceWordCount s : ℚ))
    let averageLength : ℚ := sentenceLengths.sum / (sentenceLengths.length : ℚ)
    let optimalLength : ℚ := 35/2
    let lengthScore := 1 - |averageLength - optimalLength| / optimalLength
    let variance :=
      (sentenceLengths.map (fun len => (len - averageLength)^2)).sum / (sentenceLengths.length : ℚ)
    let varietyScore := min 1 (variance / 50)
    let score := lengthScore * (7/10) + varietyScore * (3/10)
    { score := round2 score,
      factors := [("sentenceCount", (sentences.length : ℚ)),
                  ("averageLength", round2 averageLength),
                  ("lengthScore", round2 lengthScore),
                  ("varietyScore", round2 varietyScore),
                  ("variance", round2 variance)] }

def stopWords : List String :=
  ["the", "and", "or", "but", "in", "on", "at", "to", "for", "of", "with", "by",
   "is", "are", "was", "were", "be", "been", "have", "has", "had", "do", "does",
   "did", "will", "would", "could", "should", "may", "might", "can", "this",
   "that", "these", "those"]

/-- QualityMetricsService.calculateRelevance: distinct non-stop-word
overlap scaled by 1.3 and capped at 1, halved when the overlap ratio is
below 0.1, rounded to 2 decimals; a stop-word-only prompt scores a
neutral 0.5. -/
def calculateRelevance (content prompt : String) : MetricDetails :=
  let promptWords := wordsLen2 prompt
  let contentWords := wordsLen2 content
  let filteredPromptWords := promptWords.filter (fun w => !(stopWords.contains w))
  let filteredContentWords := contentWords.filter (fun w => !(stopWords.contains w))
  if filteredPromptWords.length = 0 then
    { score := 5/10,
      factors := [("promptWords", (promptWords.length : ℚ)),
                  ("contentWords", (contentWords.length : ℚ))] }
  else
    let overlap := filteredPromptWords.dedup.filter (fun w => filteredContentWords.contains w)
    let overlapRatio : ℚ := (overlap.length : ℚ) / (filteredPromptWords.length : ℚ)
    let topicConsistency := min 1 (overlapRatio * (13/10))
    let score := if overlapRatio < 1/10 then topicConsistency * (5/10) else topicConsistency
    { score := round2 score,
      factors := [("promptWords", (filteredPromptWords.length : ℚ)),
                  ("contentWords", (filteredContentWords.length : ℚ)),
                  ("overlap", (overlap.length : ℚ)),
                  ("overlapRatio", round2 overlapRatio),
                  ("topicConsistency", round2 topicConsistency)] }

/-- The QualityMetrics record stored per response. -/
structure QualityMetrics where
  coherence : ℚ
  completeness : ℚ
  readability : ℚ
  relevance : ℚ
  overallScore : ℚ
deriving Repr, DecidableEq

/-- QualityMetricsService.calculateOverallScore: fixed-weight sum of the
four sub-scores (weights 0.25 / 0.30 / 0.20 / 0.25), rounded to 2
decimals. -/
def calculateOverallScore (m : QualityMetrics) : ℚ :=
  let wCoherence : ℚ := 25/100
  let wCompleteness : ℚ := 30/100
  let wReadability : ℚ := 20/100
  let wRelevance : ℚ := 25/100
  let weightedSum :=
    m.coherence * wCoherence + m.completeness * wCompleteness +
    m.readability * wReadability + m.relevance * wRelevance
  round2 weightedSum

/-- Result of QualityMetricsService.calculateAllMetrics. -/
structure AllMetricsResult where
  metrics : QualityMetrics
  details : List (String × MetricDetails)
deriving Repr, DecidableEq

/-- QualityMetricsService.calculateAllMetrics: run the four scorers,
assemble the metrics record, then fill in the overall score. -/
def calculateAllMetrics (content prompt : String) : AllMetricsResult :=
  let coherence := calculateCoherence content
  let completeness := calculateCompleteness content prompt
  let readability := calculateReadability content
  let relevance := calculateRelevance content prompt
  let metrics0 : QualityMetrics :=
    { coherence := coherence.score, completeness := completeness.score,
      readability := readability.score, relevance := relevance.score,
      overallScore := 0 }
  let metrics := { metrics0 with overallScore := calculateOverallScore metrics0 }
  { metrics := metrics,
    details := [("coherence", coherence), ("completeness", completeness),
                ("readability", readability), ("relevance", relevance)] }

/-- One sampled parameter tuple (types.ts GenerationParameters). -/
structure GenerationParameters where
  temperature : ℚ
  top_p : ℚ
  max_tokens : ℤ
  model : Option String
deriving Repr, DecidableEq

/-- What LLMService.generateResponse resolves with. -/
structure GeneratedResult where
  content : String
  tokensUsed : ℕ
  generationTime : ℕ
deriving Repr, DecidableEq

/-- The ambient nondeterminism consumed by one mock generation:
the uniform template pick `Math.floor(Math.random()*5)`, the two random
jitters, and the elapsed wall-clock time `Date.now() - startTime`. -/
structure MockEnv where
  choice : Fin 5
  tokenJitter : ℕ
  timeJitter : ℕ
  elapsed : ℕ
deriving Repr, DecidableEq

/-- LLMService.generateCreativeWritingResponse: pick one of five fixed
templates parameterised by the temperature band. -/
def generateCreativeWritingResponse (prompt : String) (params : GenerationParameters)
    (choice : Fin 5) : String :=
  let creativityLevel :=
    if params.temperature > 7/10 then "highly imaginative"
    else if params.temperature > 4/10 then "moderately creative"
    else "structured"
  let responses : List String :=
    ["Here\x27s a " ++ creativityLevel ++ " story that captures the essence of your prompt. The narrative unfolds with careful attention to character development and plot progression, creating an engaging experience that draws readers into the world you\x27ve envisioned.",
     "This creative piece demonstrates the power of storytelling through " ++ creativityLevel ++ " narrative techniques. The characters come to life through dialogue and action, while the plot develops naturally from the initial premise. Each scene builds upon the previous one, creating a cohesive and compelling story.",
     "The story begins with an intriguing premise that immediately captures the reader\x27s attention. Through " ++ creativityLevel ++ " storytelling, the narrative explores themes of growth, discovery, and human connection. The writing style adapts to the creative parameters, resulting in a unique voice that serves the story well.",
     "In this creative exploration, the author demonstrates mastery of narrative techniques while maintaining focus on the core story elements. The " ++ creativityLevel ++ " approach ensures that readers remain engaged throughout, with each paragraph contributing to the overall impact of the piece.",
     "This story showcases the art of creative writing through careful attention to detail and character development. The " ++ creativityLevel ++ " style creates an immersive experience that allows readers to connect with the characters and become invested in their journey."]
  responses.get ⟨choice.val, choice.isLt⟩

/-- LLMService.generateExplanationResponse. -/
def generateExplanationResponse (prompt : String) (params : GenerationParameters)
    (choice : Fin 5) : String :=
  let clarityLevel :=
    if params.temperature < 5/10 then "precise and technical" else "conversational and accessible"
  let responses : List String :=
    ["Let me explain this concept in a " ++ clarityLevel ++ " manner. The topic involves several interconnected components that work together to create the overall system. Understanding each part helps build a comprehensive picture of how everything functions together.",
     "This explanation takes a " ++ clarityLevel ++ " approach to break down complex ideas into understandable components. Each section builds upon the previous one, creating a logical progression that helps readers grasp the fundamental concepts and their practical applications.",
     "To understand this topic fully, we need to examine it from multiple perspectives. This " ++ clarityLevel ++ " explanation provides the necessary context while maintaining clarity throughout. Key concepts are highlighted and supported with relevant examples that illustrate the main points effectively.",
     "The explanation begins with foundational knowledge and gradually introduces more advanced concepts. This " ++ clarityLevel ++ " approach ensures that readers can follow the reasoning and build their understanding progressively, making complex topics more accessible.",
     "This comprehensive explanation covers the essential aspects while acknowledging the complexity of the subject matter. The " ++ clarityLevel ++ " style ensures that readers can grasp both the theoretical framework and practical applications of the concepts being discussed."]
  responses.get ⟨choice.val, choice.isLt⟩

/-- LLMService.generateQAResponse. -/
def generateQAResponse (prompt : String) (params : GenerationParameters)
    (choice : Fin 5) : String :=
  let directness :=
    if params.temperature < 4/10 then "direct and concise" else "comprehensive and nuanced"
  let responses : List String :=
    ["Based on the information available, here\x27s a " ++ directness ++ " answer to your question. The response considers multiple factors and provides a balanced perspective that addresses the core aspects of what you\x27re asking about.",
     "Your question touches on an important topic that requires careful consideration. This " ++ directness ++ " response examines the evidence and provides insights that help clarify the situation while acknowledging the complexity involved.",
     "To answer your question effectively, I\x27ll provide a " ++ directness ++ " response that addresses both the immediate aspects and the broader context. This approach ensures you receive a complete and accurate answer that considers all relevant factors.",
     "The answer to your question involves several key considerations. This " ++ directness ++ " response provides a thorough analysis that helps explain not just what the answer is, but why it\x27s the case and what implications it might have.",
     "Here\x27s a " ++ directness ++ " response that addresses your question while providing the necessary context to understand the answer fully. The explanation considers different perspectives and evidence to arrive at a well-informed conclusion."]
  responses.get ⟨choice.val, choice.isLt⟩

/-- LLMService.generateCodeResponse. -/
def generateCodeResponse (prompt : String) (params : GenerationParameters)
    (choice : Fin 5) : String :=
  let complexity :=
    if params.temperature > 6/10 then "detailed and comprehensive" else "concise and focused"
  let responses : List String :=
    ["Here\x27s a " ++ complexity ++ " solution to your programming challenge. The code demonstrates best practices and includes clear comments that explain the logic and approach. The implementation is structured for readability and maintainability.",
     "This programming solution addresses your requirements using " ++ complexity ++ " techniques. The code follows clean code principles and includes proper error handling, making it robust and suitable for production use.",
     "The solution demonstrates effective problem-solving through " ++ complexity ++ " programming techniques. Each function has a clear purpose, and the overall architecture makes the code easy to understand, test, and modify as needed.",
     "This code implementation provides a solid foundation for the requested functionality. The " ++ complexity ++ " approach ensures that the solution is both complete and understandable, making it suitable for learning and practical application.",
     "Here\x27s a " ++ complexity ++ " programming solution that showcases good software engineering practices. The code balances functionality with code quality, considering edge cases and providing clear documentation for future maintenance."]
  responses.get ⟨choice.val, choice.isLt⟩

/-- LLMService.generateGeneralResponse. -/
def generateGeneralResponse (prompt : String) (params : GenerationParameters)
    (choice : Fin 5) : String :=
  let style :=
    if params.temperature > 7/10 then "creative and engaging"
    else if params.temperature < 3/10 then "formal and structured"
    else "balanced and informative"
  let responses : List String :=
    ["This is an interesting topic that deserves thoughtful consideration. The " ++ style ++ " approach allows for a comprehensive exploration while maintaining focus on the key points that matter most to your specific question or request.",
     "Your prompt raises several important points that warrant careful analysis. The " ++ style ++ " style of response ensures that each aspect receives appropriate attention while maintaining coherence throughout the discussion.",
     "This topic encompasses multiple dimensions that are worth exploring in detail. The response takes a " ++ style ++ " approach, balancing depth with accessibility to provide a meaningful and engaging answer to your prompt.",
     "The subject matter you\x27ve raised involves various interconnected elements that work together to create a complex system. A " ++ style ++ " response allows for thorough coverage while ensuring that the main points are clearly communicated and well-supported.",
     "Your prompt addresses an important area that benefits from careful analysis and thoughtful consideration. The " ++ style ++ " approach ensures that the response is both informative and engaging, providing value while maintaining clarity and accessibility."]
  responses.get ⟨choice.val, choice.isLt⟩

/-- The five prompt categories of the mock generator. -/
inductive PromptCategory where
  | creative
  | explanation
  | qa
  | code
  | general
deriving Repr, DecidableEq

/-- First-match prompt classification, exactly the if-chain of
LLMService.generateRealisticMockResponse: creative-writing keywords,
then explanatory keywords, then question markers, then code keywords,
then the general default. -/
def classifyPrompt (prompt : String) : PromptCategory :=
  let promptLower := jsToLower prompt
  if jsIncludes promptLower "story" || jsIncludes promptLower "creative" ||
      jsIncludes promptLower "write" then .creative
  else if jsIncludes promptLower "explain" || jsIncludes promptLower "how" ||
      jsIncludes promptLower "what is" then .explanation
  else if jsIncludes promptLower "?" || jsIncludes promptLower "question" then .qa
  else if jsIncludes promptLower "code" || jsIncludes promptLower "program" ||
      jsIncludes promptLower "function" then .code
  else .general

/-- LLMService.generateRealisticMockResponse: dispatch on the
first-match classification (the source's early-return if-chain). -/
def generateRealisticMockResponse (prompt : String) (params : GenerationParameters)
    (choice : Fin 5) : String :=
  match classifyPrompt prompt with
  | .creative => generateCreativeWritingResponse prompt params choice
  | .explanation => generateExplanationResponse prompt params choice
  | .qa => generateQAResponse prompt params choice
  | .code => generateCodeResponse prompt params choice
  | .general => generateGeneralResponse prompt params choice

/-- LLMService.generateMockResponse: template text plus
content-length-derived token estimate and elapsed time with jitter. -/
def generateMockResponse (prompt : String) (params : GenerationParameters)
    (env : MockEnv) : GeneratedResult :=
  let content := generateRealisticMockResponse prompt params env.choice
  { content := content,
    tokensUsed := content.length / 4 + env.tokenJitter,
    generationTime := env.elapsed + env.timeJitter }

/-- Outcome of one provider attempt: either the model resolved with text
(possibly empty, e.g. blocked by safety filters) or the call threw an
error carrying an optional HTTP status code. -/
inductive ProviderOutcome where
  | content (text : String)
  | failure (status : Option ℤ)
deriving Repr, DecidableEq

/-- The ordered model fallback list of LLMService.generateResponse. -/
def modelsToTry (params : GenerationParameters) : List String :=
  [params.model.getD "gemini-2.5-flash", "gemini-1.5-flash", "gemini-1.5-pro", "gemini-pro"]

/-- The retryable status codes checked in the catch branch. -/
def isRetryableStatus (status : Option ℤ) : Bool :=
  status == some 503 || status == some 429 || status == some 500 || status == some 502

/-- The model-fallback loop of LLMService.generateResponse, one call per
attempt index.  `remaining + 1` is the number of models left including
the current one; `remaining = 0` marks the last attempt.  Empty trimmed
content: mock on the last attempt, otherwise try the next model.  A
thrown error: retryable and not last → backoff and next model; last
attempt → mock; otherwise (non-retryable, models remaining) the catch
block falls through and the loop simply advances to the next model.
The `0` case is the unreachable post-loop mock fallback. -/
def attemptModels (prompt : String) (params : GenerationParameters)
    (provider : ℕ → ProviderOutcome) (env : MockEnv) : ℕ → ℕ → GeneratedResult
  | _, 0 => generateMockResponse prompt params env
  | attempt, remaining + 1 =>
    let isLast := remaining == 0
    match provider attempt with
    | .content text =>
      if (strTrim text).length = 0 then
        if isLast then generateMockResponse prompt params env
        else attemptModels prompt params provider env (attempt + 1) remaining
      else
        { content := text,
          tokensUsed := text.length / 4 + prompt.length / 4,
          generationTime := env.elapsed }
    | .failure status =>
      if isRetryableStatus status && !isLast then
        attemptModels prompt params provider env (attempt + 1) remaining
      else if isLast then generateMockResponse prompt params env
      else attemptModels prompt params provider env (attempt + 1) remaining

/-- LLMService.generateResponse: mock mode short-circuits to the mock
generator; otherwise the model fallback loop runs over the four models.
The provider oracle abstracts one network round trip per attempt. -/
def generateResponse (prompt : String) (params : GenerationParameters)
    (isMockMode : Bool) (provider : ℕ → ProviderOutcome) (env : MockEnv) : GeneratedResult :=
  if isMockMode then generateMockResponse prompt params env
  else attemptModels prompt params provider env 0 (modelsToTry params).length

/-- One {min,max,step} bounds triple (types.ts ParameterRange entries);
only min and max are consumed by the sampler. -/
structure RangeBounds where
  min : ℚ
  max : ℚ
  step : ℚ
deriving Repr, DecidableEq

/-- The three sampling ranges (types.ts ParameterRange). -/
structure ParameterRange where
  temperature : RangeBounds
  top_p : RangeBounds
  max_tokens : RangeBounds
deriving Repr, DecidableEq

/-- generation.ts randomInRange: `Math.random() * (max - min) + min`,
with the `Math.random()` draw `r` passed in explicitly. -/
def randomInRange (r min max : ℚ) : ℚ := r * (max - min) + min

/-- generation.ts generateParameterCombinations: for each of `count`
draws, sample temperature and top_p (rounded to 2 decimals) and
max_tokens (floored to an integer).  `rand` is the injected
`Math.random()` stream; iteration `i` consumes draws `3*i`, `3*i+1`,
`3*i+2` in the source's call order. -/
def generateParameterCombinations (range : ParameterRange) (count : ℕ)
    (rand : ℕ → ℚ) : List GenerationParameters :=
  (List.range count).map (fun i =>
    { temperature := round2 (randomInRange (rand (3*i)) range.temperature.min range.temperature.max),
      top_p := round2 (randomInRange (rand (3*i + 1)) range.top_p.min range.top_p.max),
      max_tokens := ⌊randomInRange (rand (3*i + 2)) range.max_tokens.min range.max_tokens.max⌋,
      model := some "gemini-2.5-flash" })

/-- The validation prefix of the POST / handler in generation.ts.  A JS
falsy check guards all three fields together: a missing or empty prompt,
a missing range, and a missing or zero numberOfRuns (0 is falsy) are
rejected as missing fields; then `numberOfRuns > 20` is rejected.
Anything else — including a negative numberOfRuns — proceeds. -/
def validateGenerationRequest (prompt : Option String)
    (parameterRange : Option ParameterRange) (numberOfRuns : Option ℤ) :
    Except String (ParameterRange × ℤ) :=
  match parameterRange with
  | none => .error "Missing required fields: prompt, parameterRange, numberOfRuns"
  | some range =>
    let runs := numberOfRuns.getD 0
    if prompt.getD "" = "" ∨ runs = 0 then
      .error "Missing required fields: prompt, parameterRange, numberOfRuns"
    else if runs > 20 then
      .error "Maximum 20 runs allowed per request"
    else
      .ok (range, runs)

/-- Route outcome: `rejected` is the 400 response returned before the
experiment record is created and before any parameter tuple is sampled
or provider call made; `started` carries the sampled tuples the
generation pipeline then runs with. -/
inductive RouteOutcome where
  | rejected (message : String)
  | started (combos : List GenerationParameters)
deriving Repr, DecidableEq

/-- The POST / handler of generation.ts up to parameter sampling:
validate, then sample `numberOfRuns` tuples.  A for loop bounded by a
negative count runs zero times, hence `Int.toNat`. -/
def postGeneration (prompt : Option String) (parameterRange : Option ParameterRange)
    (numberOfRuns : Option ℤ) (rand : ℕ → ℚ) : RouteOutcome :=
  match validateGenerationRequest prompt parameterRange numberOfRuns with
  | .error e => .rejected e
  | .ok (range, runs) => .started (generateParameterCombinations range runs.toNat rand)

/-- JS division of a finite numerator by an array length: `none` models
the NaN produced by `0 / 0` when the array is empty. -/
def jsDivNat (x : ℚ) (n : ℕ) : Option ℚ := if n = 0 then none else some (x / n)

/-- `Math.round(NaN) / 100` is NaN: rounding propagates the NaN. -/
def jsRound2 : Option ℚ → Option ℚ
  | none => none
  | some q => some (round2 q)

/-- A metrics object whose fields are JS numbers that may be NaN
(`none`). -/
structure JsQualityMetrics where
  coherence : Option ℚ
  completeness : Option ℚ
  readability : Option ℚ
  relevance : Option ℚ
  overallScore : Option ℚ
deriving Repr, DecidableEq

/-- calculateOverallScore applied to a possibly-NaN metrics object:
arithmetic on NaN yields NaN. -/
def jsCalculateOverallScore (m : JsQualityMetrics) : Option ℚ :=
  match m.coherence, m.completeness, m.readability, m.relevance with
  | some c, some k, some r, some l =>
    some (calculateOverallScore
      { coherence := c, completeness := k, readability := r, relevance := l,
        overallScore := 0 })
  | _, _, _, _ => none

/-- The experiment-level aggregation of the POST / handler
(generation.ts lines 132-140): element-wise averages of the four
sub-scores rounded to 2 decimals, then the overall score recomputed
from those averaged sub-scores via calculateOverallScore.  The totals
are the running sums of the per-response loop; `responseCount` is the
number of processed responses, and with zero responses every field is
`0 / 0 = NaN`. -/
def averageMetrics (l : List QualityMetrics) : JsQualityMetrics :=
  let responseCount := l.length
  let m0 : JsQualityMetrics :=
    { coherence := jsRound2 (jsDivNat ((l.map (fun m => m.coherence)).sum) responseCount),
      completeness := jsRound2 (jsDivNat ((l.map (fun m => m.completeness)).sum) responseCount),
      readability := jsRound2 (jsDivNat ((l.map (fun m => m.readability)).sum) responseCount),
      relevance := jsRound2 (jsDivNat ((l.map (fun m => m.relevance)).sum) responseCount),
      overallScore := some 0 }
  { m0 with overallScore := jsCalculateOverallScore m0 }

/-- export.ts calculateAverageMetrics: an empty result list returns the
empty object `\x7b\x7d` (modelled `none`); otherwise all five stored fields —
including each record's own overallScore — are averaged and rounded to
2 decimals. -/
def calculateAverageMetrics (results : List QualityMetrics) : Option QualityMetrics :=
  if results.length = 0 then none
  else
    some
      { coherence := round2 ((results.map (fun m => m.coherence)).sum / (results.length : ℚ)),
        completeness := round2 ((results.map (fun m => m.completeness)).sum / (results.length : ℚ)),
        readability := round2 ((results.map (fun m => m.readability)).sum / (results.length : ℚ)),
        relevance := round2 ((results.map (fun m => m.relevance)).sum / (results.length : ℚ)),
        overallScore := round2 ((results.map (fun m => m.overallScore)).sum / (results.length : ℚ)) }

/-- The ambient JS environment a request handler runs in: the
`Math.random()` stream and the `Date.now()` clock. -/
structure JsEnv where
  randomSeq : ℕ → ℚ
  clock : ℕ → ℕ

/-- QualityMetricsService.calculateAllMetrics with the ambient
environment threaded through the translation.  The bodies of the four
scorers and of the aggregator contain no call to `Math.random()` or
`Date.now()` and read no mutable state, so the environment is unused —
in contrast to mock generation, which consumes a `MockEnv`. -/
def calculateAllMetricsEnv (env : JsEnv) (content prompt : String) : AllMetricsResult :=
  calculateAllMetrics content prompt

/-- A single unpunctuated 36-word sentence: average sentence length 36
exceeds twice the optimal 17.5, driving the readability length score
negative. -/
def longSentence36 : String :=
  "a a a a a a a a a a a a a a a a a a a a a a a a a a a a a a a a a a a a"

/-- Concrete parameters used in closed evaluations. -/
def paramsMid : GenerationParameters :=
  { temperature := 1/2, top_p := 9/10, max_tokens := 100, model := none }

/-- A concrete mock environment: first template, no jitter. -/
def envZero : MockEnv := { choice := 0, tokenJitter := 0, timeJitter := 0, elapsed := 0 }

/-- A concrete mock environment picking the second template. -/
def envOne : MockEnv := { choice := 1, tokenJitter := 0, timeJitter := 0, elapsed := 0 }

/-- A provider whose first attempt throws a non-transient 400 error and
whose remaining models resolve with text. -/
def provider400ThenOk : ℕ → ProviderOutcome := fun i =>
  if i = 0 then ProviderOutcome.failure (some 400)
  else ProviderOutcome.content "fallback model answer"

/-- A provider stub returning empty content for every model. -/
def emptyProvider : ℕ → ProviderOutcome := fun _ => ProviderOutcome.content ""

/-- Metrics record with a tiny relevance sub-score; its stored overall
score is the one the service computes (0.02, from weighted sum 0.015
rounded half-up). -/
def metricsLow : QualityMetrics :=
  { coherence := 0, completeness := 0, readability := 0, relevance := 6/100,
    overallScore := calculateOverallScore
      { coherence := 0, completeness := 0, readability := 0, relevance := 6/100,
        overallScore := 0 } }

/-- Metrics record with high sub-scores; its stored overall score is the
one the service computes (0.99, from weighted sum 0.985 rounded
half-up). -/
def metricsHigh : QualityMetrics :=
  { coherence := 1, completeness := 1, readability := 1, relevance := 94/100,
    overallScore := calculateOverallScore
      { coherence := 1, completeness := 1, readability := 1, relevance := 94/100,
        overallScore := 0 } }

/-- A concrete parameter range with temperature range [0.1, 0.9]. -/
def exampleRange : ParameterRange :=
  { temperature := { min := 1/10, max := 9/10, step := 1/10 },
    top_p := { min := 1/10, max := 1, step := 1/10 },
    max_tokens := { min := 50, max := 500, step := 50 } }

theorem round2_mono {q r : ℚ} (h : q ≤ r) : round2 q ≤ round2 r := by
  unfold round2
  have h2 : round (q * 100) ≤ round (r * 100) := by
    rw [round_eq, round_eq]
    exact Int.floor_le_floor (by linarith)
  have h3 : ((round (q * 100) : ℤ) : ℚ) ≤ ((round (r * 100) : ℤ) : ℚ) := by
    exact_mod_cast h2
  linarith

theorem round2_nonneg {q : ℚ} (h : 0 ≤ q) : 0 ≤ round2 q := by
  have h0 : round2 (0 : ℚ) = 0 := by
    simp [round2]
  have := round2_mono h
  rw [h0] at this
  exact this

theorem round2_le_one {q : ℚ} (h : q ≤ 1) : round2 q ≤ 1 := by
  have h1 : round2 (1 : ℚ) = 1 := by
    norm_num [round2]
  have := round2_mono h
  rw [h1] at this
  exact this

theorem round2_idem (q : ℚ) : round2 (round2 q) = round2 q := by
  unfold round2
  have hc : (((round (q * 100) : ℤ) : ℚ) / 100) * 100 = ((round (q * 100) : ℤ) : ℚ) :=
    div_mul_cancel₀ _ (by norm_num)
  rw [hc, round_intCast]

theorem min_one_unit {x : ℚ} (hx : 0 ≤ x) : 0 ≤ min 1 x ∧ min 1 x ≤ 1 :=
  ⟨le_min (by norm_num) hx, min_le_left _ _⟩

theorem coherence_score_bounds (content : String) :
    0 ≤ (calculateCoherence content).score ∧ (calculateCoherence content).score ≤ 1 := by
  simp only [calculateCoherence]
  split_ifs with h
  · norm_num
  · have hr : (0 : ℚ) ≤ ((wordsOf content).dedup.length : ℚ) / ((wordsOf content).length : ℚ) := by
      positivity
    have hm := min_one_unit (x := ((wordsOf content).dedup.length : ℚ) / ((wordsOf content).length : ℚ) * (12/10)) (by positivity)
    exact ⟨round2_nonneg hm.1, round2_le_one hm.2⟩

theorem min_one_mul_le_one {y : ℚ} (hy : 0 ≤ y) : min 1 y * (7/10) ≤ 1 := by
  have h1 : min 1 y ≤ 1 := min_le_left _ _
  have h0 : 0 ≤ min 1 y := le_min (by norm_num) hy
  nlinarith

theorem completeness_score_bounds (content prompt : String) :
    0 ≤ (calculateCompleteness content prompt).score ∧
      (calculateCompleteness content prompt).score ≤ 1 := by
  simp only [calculateCompleteness]
  constructor
  · apply round2_nonneg
    split_ifs <;> positivity
  · apply round2_le_one
    split_ifs <;>
      first
        | exact min_le_left _ _
        | exact min_one_mul_le_one (by positivity)

theorem min_one_mul_half_le_one {y : ℚ} (hy : 0 ≤ y) : min 1 y * (5/10) ≤ 1 := by
  have h1 : min 1 y ≤ 1 := min_le_left _ _
  have h0 : 0 ≤ min 1 y := le_min (by norm_num) hy
  nlinarith

theorem relevance_score_bounds (content prompt : String) :
    0 ≤ (calculateRelevance content prompt).score ∧
      (calculateRelevance content prompt).score ≤ 1 := by
  simp only [calculateRelevance]
  split_ifs with h h2
  · norm_num
  · constructor
    · apply round2_nonneg; positivity
    · exact round2_le_one (min_one_mul_half_le_one (by positivity))
  · constructor
    · apply round2_nonneg; positivity
    · exact round2_le_one (min_le_left _ _)

theorem readability_core_le_one (a v : ℚ) (hv : 0 ≤ v) :
    (1 - |a - 35/2| / (35/2)) * (7/10) + min 1 (v/50) * (3/10) ≤ 1 := by
  have habs : (0:ℚ) ≤ |a - 35/2| / (35/2) := by positivity
  have hvs : min 1 (v/50) ≤ 1 := min_le_left _ _
  have hvs0 : (0:ℚ) ≤ min 1 (v/50) := le_min (by norm_num) (by positivity)
  nlinarith

theorem readability_score_le_one (content : String) :
    (calculateReadability content).score ≤ 1 := by
  simp only [calculateReadability]
  split_ifs with h
  · norm_num
  · apply round2_le_one
    apply readability_core_le_one
    apply div_nonneg
    · apply List.sum_nonneg
      intro x hx
      obtain ⟨y, hy, rfl⟩ := List.mem_map.mp hx
      positivity
    · positivity

/-- C1 (amended): for every string input — including the empty string —
calculateCoherence, calculateCompleteness and calculateRelevance return
scores in the closed interval [0,1], and calculateReadability returns a
score at most 1; the readability score is however not bounded below by
0 (see the counterexample theorem: a single 36-word sentence scores
negatively, because the length score 1 - |avg - 17.5| / 17.5 is
negative whenever the average sentence length exceeds 35 words). -/
theorem c1_scorer_score_ranges (content prompt : String) :
    (0 ≤ (calculateCoherence content).score ∧ (calculateCoherence content).score ≤ 1) ∧
    (0 ≤ (calculateCompleteness content prompt).score ∧
      (calculateCompleteness content prompt).score ≤ 1) ∧
    (0 ≤ (calculateRelevance content prompt).score ∧
      (calculateRelevance content prompt).score ≤ 1) ∧
    (calculateReadability content).score ≤ 1 :=
  ⟨coherence_score_bounds content, completeness_score_bounds content prompt,
    relevance_score_bounds content prompt, readability_score_le_one content⟩

/-- C1 counterexample: calculateReadability does not return a score in
[0,1] for every input.  On a single unpunctuated 36-word sentence the
average sentence length is 36, the length score is 1 - 18.5/17.5 < 0,
the variance term is 0, and the emitted score is -0.04. -/
theorem c1_readability_negative_counterexample :
    (calculateReadability longSentence36).score < 0 := by
  have h1 : sentencesOf longSentence36 = [longSentence36] := by decide
  have h2 : sentenceWordCount longSentence36 = 36 := by decide
  rw [calculateReadability, h1]
  norm_num [h2]
  rw [abs_of_nonneg (by norm_num)]
  norm_num [round2, round_eq]

/-- C4: calculateOverallScore is exactly round2 of the fixed weighted
sum 0.25·coherence + 0.30·completeness + 0.20·readability +
0.25·relevance, for every metrics record (in particular for all
sub-scores in [0,1]), and the four weights sum to exactly 1. -/
theorem c4_overall_score_weighted_formula (m : QualityMetrics) :
    calculateOverallScore m =
      round2 (25/100 * m.coherence + 30/100 * m.completeness +
        20/100 * m.readability + 25/100 * m.relevance) ∧
    (25/100 + 30/100 + 20/100 + 25/100 : ℚ) = 1 := by
  constructor
  · simp only [calculateOverallScore]
    congr 1
    ring
  · norm_num

/-- C10: the scoring engine is deterministic — calculateAllMetrics run
under any two ambient environments (random stream, clock) returns
identical metrics and identical per-metric details, since no scorer
consults the environment; by contrast mock text generation is
randomized: two draws of its injected randomness can produce different
content for the same prompt and parameters. -/
theorem c10_scoring_deterministic :
    (∀ (env1 env2 : JsEnv) (content prompt : String),
      calculateAllMetricsEnv env1 content prompt = calculateAllMetricsEnv env2 content prompt) ∧
    (∃ env1 env2 : MockEnv,
      (generateMockResponse "hello" paramsMid env1).content ≠
        (generateMockResponse "hello" paramsMid env2).content) := by
  constructor
  · intro env1 env2 content prompt
    rfl
  · refine ⟨envZero, envOne, ?_⟩
    have hc : classifyPrompt "hello" = PromptCategory.general := by decide
    have hb1 : ¬((1:ℚ)/2 > 7/10) := by norm_num
    have hb2 : ¬((1:ℚ)/2 < 3/10) := by norm_num
    simp only [generateMockResponse, generateRealisticMockResponse, paramsMid, envZero, envOne,
      hc, generateGeneralResponse, hb1, hb2, if_false]
    decide

theorem left_ne_empty {a : String} (b : String) (h : a ≠ "") : a ++ b ≠ "" := by
  intro hab
  apply h
  have hd := congrArg String.data hab
  rw [String.data_append] at hd
  have hempty : String.data "" = [] := rfl
  rw [hempty] at hd
  have ha : a.data = [] := (List.append_eq_nil.mp hd).1
  exact String.ext (ha.trans hempty.symm)

theorem mock_content_ne_empty (prompt : String) (params : GenerationParameters) (choice : Fin 5) :
    generateRealisticMockResponse prompt params choice ≠ "" := by
  cases hc : classifyPrompt prompt <;>
    simp only [generateRealisticMockResponse, hc, generateCreativeWritingResponse,
      generateExplanationResponse, generateQAResponse, generateCodeResponse,
      generateGeneralResponse] <;>
    fin_cases choice <;>
    exact left_ne_empty _ (left_ne_empty _ (by decide))

/-- C2: generateResponse is a total function of its inputs — it always
yields a GeneratedResult (the absorbing catch plus the mock fallback
leave no raising path) — and when the provider resolves with empty
content for every model in the fallback list, the call still resolves
with the mock generator's result, whose content string is non-empty
for every prompt, parameter tuple and random template choice. -/
theorem c2_empty_provider_falls_back_to_nonempty_mock (prompt : String)
    (params : GenerationParameters) (provider : ℕ → ProviderOutcome) (env : MockEnv)
    (h : ∀ i, provider i = ProviderOutcome.content "") :
    generateResponse prompt params false provider env = generateMockResponse prompt params env ∧
    (generateResponse prompt params false provider env).content ≠ "" := by
  have key : attemptModels prompt params provider env 0 4 = generateMockResponse prompt params env := by
    have hs : (strTrim "").length = 0 := rfl
    simp only [attemptModels, h 0, h 1, h 2, h 3, hs]
    simp
  refine ⟨key, ?_⟩
  show (attemptModels prompt params provider env 0 4).content ≠ ""
  rw [key]
  exact mock_content_ne_empty prompt params env.choice

/-- C2 witness: the all-empty provider stub at a concrete prompt and
parameter tuple resolves with the (non-empty) mock result. -/
theorem c2_empty_provider_falls_back_to_nonempty_mock_witness :
    generateResponse "p" paramsMid false emptyProvider envZero =
      generateMockResponse "p" paramsMid envZero ∧
    (generateResponse "p" paramsMid false emptyProvider envZero).content ≠ "" :=
  c2_empty_provider_falls_back_to_nonempty_mock "p" paramsMid emptyProvider envZero
    (fun _ => rfl)

/-- C3: evaluation of the code at the failing input.  The first model
attempt throws a non-transient 400 error while three fallback models
remain; the code proceeds to the next model and resolves with that
model's content — it does not fall through to the MockGenerator, even
though the catch branch's own comment says a non-retryable error should
fall back to mock. -/
theorem c3_nontransient_error_continues_to_next_model :
    (generateResponse "p" paramsMid false provider400ThenOk envZero).content =
      "fallback model answer" ∧
    generateResponse "p" paramsMid false provider400ThenOk envZero ≠
      generateMockResponse "p" paramsMid envZero := by
  have h0 : provider400ThenOk 0 = ProviderOutcome.failure (some 400) := rfl
  have h1 : provider400ThenOk 1 = ProviderOutcome.content "fallback model answer" := rfl
  have hr : isRetryableStatus (some 400) = false := by decide
  have ht : ¬((strTrim "fallback model answer").length = 0) := by decide
  have key : (generateResponse "p" paramsMid false provider400ThenOk envZero).content =
      "fallback model answer" := by
    show (attemptModels "p" paramsMid provider400ThenOk envZero 0 4).content = _
    simp only [attemptModels, h0, h1, hr, ht]
    simp
  refine ⟨key, ?_⟩
  intro heq
  have hcontent := congrArg GeneratedResult.content heq
  rw [key] at hcontent
  have hc : classifyPrompt "p" = PromptCategory.general := by decide
  have hb1 : ¬((1:ℚ)/2 > 7/10) := by norm_num
  have hb2 : ¬((1:ℚ)/2 < 3/10) := by norm_num
  simp only [generateMockResponse, generateRealisticMockResponse, hc, generateGeneralResponse,
    paramsMid, envZero, hb1, hb2, if_false] at hcontent
  exact absurd hcontent (by decide)

/-- C9: the mock generator classifies by first-match priority with
creative-writing keywords checked first, so any prompt whose lowercase
form contains "story" — in particular one also containing "explain" —
is classified creative-writing, and mock generation for it dispatches
to the creative-writing templates. -/
theorem c9_story_and_explain_classifies_creative (p : String)
    (h1 : jsIncludes (jsToLower p) "story" = true)
    (h2 : jsIncludes (jsToLower p) "explain" = true) :
    classifyPrompt p = PromptCategory.creative ∧
    ∀ (params : GenerationParameters) (choice : Fin 5),
      generateRealisticMockResponse p params choice =
        generateCreativeWritingResponse p params choice := by
  have hcl : classifyPrompt p = PromptCategory.creative := by
    simp only [classifyPrompt, h1, Bool.true_or, if_true]
  exact ⟨hcl, fun params choice => by
    simp only [generateRealisticMockResponse, hcl]⟩

/-- C9 witness: a concrete prompt containing both "story" and "explain"
is classified creative-writing. -/
theorem c9_story_and_explain_classifies_creative_witness :
    classifyPrompt "tell me a story and explain it" = PromptCategory.creative ∧
    ∀ (params : GenerationParameters) (choice : Fin 5),
      generateRealisticMockResponse "tell me a story and explain it" params choice =
        generateCreativeWritingResponse "tell me a story and explain it" params choice :=
  c9_story_and_explain_classifies_creative "tell me a story and explain it"
    (by decide) (by decide)

/-- C5: for every non-empty metrics list, the experiment-level aggregate
averages each of the four sub-scores element-wise (each average rounded
to 2 decimals) and recomputes overallScore from those averaged
sub-scores with the fixed weighted formula; on the concrete pair
(metricsLow, metricsHigh) this yields 0.5, which differs from the
rounded average 0.505 → 0.51 of the two records' own overall scores —
so the implementation does not average per-item overall scores. -/
theorem c5_aggregate_recomputes_overall_from_averaged_subscores :
    (∀ l : List QualityMetrics, l ≠ [] →
      averageMetrics l =
        { coherence := some (round2 ((l.map (fun m => m.coherence)).sum / (l.length : ℚ))),
          completeness := some (round2 ((l.map (fun m => m.completeness)).sum / (l.length : ℚ))),
          readability := some (round2 ((l.map (fun m => m.readability)).sum / (l.length : ℚ))),
          relevance := some (round2 ((l.map (fun m => m.relevance)).sum / (l.length : ℚ))),
          overallScore := some (calculateOverallScore
            { coherence := round2 ((l.map (fun m => m.coherence)).sum / (l.length : ℚ)),
              completeness := round2 ((l.map (fun m => m.completeness)).sum / (l.length : ℚ)),
              readability := round2 ((l.map (fun m => m.readability)).sum / (l.length : ℚ)),
              relevance := round2 ((l.map (fun m => m.relevance)).sum / (l.length : ℚ)),
              overallScore := 0 }) }) ∧
    (averageMetrics [metricsLow, metricsHigh]).overallScore = some (1/2) ∧
    round2 ((metricsLow.overallScore + metricsHigh.overallScore) / 2) = 51/100 ∧
    (averageMetrics [metricsLow, metricsHigh]).overallScore ≠
      some (round2 ((metricsLow.overallScore + metricsHigh.overallScore) / 2)) := by
  have hchar : ∀ l : List QualityMetrics, l ≠ [] →
      averageMetrics l =
        { coherence := some (round2 ((l.map (fun m => m.coherence)).sum / (l.length : ℚ))),
          completeness := some (round2 ((l.map (fun m => m.completeness)).sum / (l.length : ℚ))),
          readability := some (round2 ((l.map (fun m => m.readability)).sum / (l.length : ℚ))),
          relevance := some (round2 ((l.map (fun m => m.relevance)).sum / (l.length : ℚ))),
          overallScore := some (calculateOverallScore
            { coherence := round2 ((l.map (fun m => m.coherence)).sum / (l.length : ℚ)),
              completeness := round2 ((l.map (fun m => m.completeness)).sum / (l.length : ℚ)),
              readability := round2 ((l.map (fun m => m.readability)).sum / (l.length : ℚ)),
              relevance := round2 ((l.map (fun m => m.relevance)).sum / (l.length : ℚ)),
              overallScore := 0 }) } := by
    intro l hl
    have h : l.length ≠ 0 := by simpa using hl
    simp [averageMetrics, jsDivNat, h, jsRound2, jsCalculateOverallScore]
  have himpl : (averageMetrics [metricsLow, metricsHigh]).overallScore = some (1/2) := by
    simp [averageMetrics, metricsLow, metricsHigh, jsDivNat, jsRound2,
      jsCalculateOverallScore, calculateOverallScore]
    norm_num [round2, round_eq]
  have havg : round2 ((metricsLow.overallScore + metricsHigh.overallScore) / 2) = 51/100 := by
    simp [metricsLow, metricsHigh, calculateOverallScore]
    norm_num [round2, round_eq]
  refine ⟨hchar, himpl, havg, ?_⟩
  rw [himpl, havg]
  intro hcontra
  have := Option.some.inj hcontra
  norm_num at this

/-- C5 witness: the characterisation instantiated at the concrete
two-element list. -/
theorem c5_aggregate_recomputes_overall_from_averaged_subscores_witness :
    averageMetrics [metricsLow, metricsHigh] =
      { coherence := some (round2 ((([metricsLow, metricsHigh] : List QualityMetrics).map (fun m => m.coherence)).sum / (([metricsLow, metricsHigh] : List QualityMetrics).length : ℚ))),
        completeness := some (round2 ((([metricsLow, metricsHigh] : List QualityMetrics).map (fun m => m.completeness)).sum / (([metricsLow, metricsHigh] : List QualityMetrics).length : ℚ))),
        readability := some (round2 ((([metricsLow, metricsHigh] : List QualityMetrics).map (fun m => m.readability)).sum / (([metricsLow, metricsHigh] : List QualityMetrics).length : ℚ))),
        relevance := some (round2 ((([metricsLow, metricsHigh] : List QualityMetrics).map (fun m => m.relevance)).sum / (([metricsLow, metricsHigh] : List QualityMetrics).length : ℚ))),
        overallScore := some (calculateOverallScore
          { coherence := round2 ((([metricsLow, metricsHigh] : List QualityMetrics).map (fun m => m.coherence)).sum / (([metricsLow, metricsHigh] : List QualityMetrics).length : ℚ)),
            completeness := round2 ((([metricsLow, metricsHigh] : List QualityMetrics).map (fun m => m.completeness)).sum / (([metricsLow, metricsHigh] : List QualityMetrics).length : ℚ)),
            readability := round2 ((([metricsLow, metricsHigh] : List QualityMetrics).map (fun m => m.readability)).sum / (([metricsLow, metricsHigh] : List QualityMetrics).length : ℚ)),
            relevance := round2 ((([metricsLow, metricsHigh] : List QualityMetrics).map (fun m => m.relevance)).sum / (([metricsLow, metricsHigh] : List QualityMetrics).length : ℚ)),
            overallScore := 0 }) } :=
  c5_aggregate_recomputes_overall_from_averaged_subscores.1 [metricsLow, metricsHigh]
    (by simp)

/-- C6 counterexample: aggregating the empty metrics list in the
generation route does not signal a "no data" outcome — it returns a
metrics object each of whose five fields is the JS NaN produced by the
0/0 division (modelled `none`), which the route then serialises in a
success response. -/
theorem c6_empty_aggregate_is_nan_object_counterexample :
    averageMetrics [] =
      { coherence := none, completeness := none, readability := none,
        relevance := none, overallScore := none } := rfl

/-- C6 (amended): aggregating an empty metrics list never signals an
explicit "no data" outcome in the generation route — averageMetrics
yields a metrics object whose five fields are all NaN (0/0, modelled
`none`), silently returned to the caller; only the export route's
calculateAverageMetrics short-circuits on an empty list, returning the
field-less empty object (modelled `none`) instead of a numeric metrics
record.  Neither path returns zeros. -/
theorem c6_empty_aggregate_behaviour :
    averageMetrics [] =
      { coherence := none, completeness := none, readability := none,
        relevance := none, overallScore := none } ∧
    calculateAverageMetrics [] = none :=
  ⟨rfl, rfl⟩

/-- C7 counterexample: a request with run count -1 (outside [1,20]) is
not rejected by validation — -1 is JS-truthy and not greater than 20,
so the route proceeds, creates the experiment, and samples an empty
parameter list. -/
theorem c7_negative_run_count_not_rejected_counterexample :
    postGeneration (some "p") (some exampleRange) (some (-1)) (fun _ => 0) =
      RouteOutcome.started [] := rfl

/-- C7 (amended): every generation request whose run count is greater
than 20 is rejected with a validation error, and a run count of 0 is
JS-falsy and rejected as a missing field — in both cases before any
experiment is created, any parameter tuple sampled, or any provider
call attempted (the rejected outcome carries no sampled tuples).
Negative run counts, however, are not rejected (see the
counterexample). -/
theorem c7_run_count_validation (prompt : Option String) (range : Option ParameterRange)
    (runs : ℤ) (rand : ℕ → ℚ) (h : 20 < runs ∨ runs = 0) :
    ∃ msg, postGeneration prompt range (some runs) rand = RouteOutcome.rejected msg := by
  rcases range with _ | r
  · exact ⟨"Missing required fields: prompt, parameterRange, numberOfRuns", rfl⟩
  · simp only [postGeneration, validateGenerationRequest, Option.getD_some]
    rcases h with h20 | h0
    · by_cases hp : prompt.getD "" = "" ∨ runs = 0
      · rw [if_pos hp]
        exact ⟨_, rfl⟩
      · rw [if_neg hp, if_pos h20]
        exact ⟨_, rfl⟩
    · rw [if_pos (Or.inr h0)]
      exact ⟨_, rfl⟩

/-- C7 witness: run counts 21 and 0 are both rejected at a concrete
well-formed request. -/
theorem c7_run_count_validation_witness :
    (∃ msg, postGeneration (some "p") (some exampleRange) (some 21) (fun _ => 0) =
      RouteOutcome.rejected msg) ∧
    (∃ msg, postGeneration (some "p") (some exampleRange) (some 0) (fun _ => 0) =
      RouteOutcome.rejected msg) :=
  ⟨c7_run_count_validation (some "p") (some exampleRange) 21 (fun _ => 0) (Or.inl (by norm_num)),
   c7_run_count_validation (some "p") (some exampleRange) 0 (fun _ => 0) (Or.inr rfl)⟩

/-- C8: for every range, every count in [1,20] and every random stream
drawing in [0,1), the sampler returns an ordered sequence of exactly
`count` tuples whose i-th element is built from draws 3i, 3i+1, 3i+2;
temperature and top_p are two-decimal values (round2-fixed points), the
output-length bound is an integer by construction (the floor of its
draw), and when the temperature range is [0.1, 0.9] every sampled
temperature lies in [0.1, 0.9] after rounding. -/
theorem c8_parameter_sampler_shape_and_bounds (range : ParameterRange) (count : ℕ)
    (rand : ℕ → ℚ) (hc1 : 1 ≤ count) (hc2 : count ≤ 20)
    (hrand : ∀ i, 0 ≤ rand i ∧ rand i < 1) :
    (generateParameterCombinations range count rand).length = count ∧
    (∀ i (hi : i < (generateParameterCombinations range count rand).length),
      (generateParameterCombinations range count rand).get ⟨i, hi⟩ =
        { temperature := round2 (randomInRange (rand (3*i)) range.temperature.min range.temperature.max),
          top_p := round2 (randomInRange (rand (3*i + 1)) range.top_p.min range.top_p.max),
          max_tokens := ⌊randomInRange (rand (3*i + 2)) range.max_tokens.min range.max_tokens.max⌋,
          model := some "gemini-2.5-flash" }) ∧
    (∀ p ∈ generateParameterCombinations range count rand,
      round2 p.temperature = p.temperature ∧ round2 p.top_p = p.top_p) ∧
    (range.temperature.min = 1/10 → range.temperature.max = 9/10 →
      ∀ p ∈ generateParameterCombinations range count rand,
        1/10 ≤ p.temperature ∧ p.temperature ≤ 9/10) := by
  refine ⟨?_, ?_, ?_, ?_⟩
  · simp [generateParameterCombinations]
  · intro i hi
    simp [generateParameterCombinations, List.get_eq_getElem, List.getElem_map,
      List.getElem_range]
  · intro p hp
    simp only [generateParameterCombinations, List.mem_map, List.mem_range] at hp
    obtain ⟨i, hi, rfl⟩ := hp
    exact ⟨round2_idem _, round2_idem _⟩
  · intro hmin hmax p hp
    simp only [generateParameterCombinations, List.mem_map, List.mem_range] at hp
    obtain ⟨i, hi, rfl⟩ := hp
    dsimp only
    rw [hmin, hmax]
    have h01 := hrand (3*i)
    constructor
    · have h1 : (1/10 : ℚ) ≤ randomInRange (rand (3*i)) (1/10) (9/10) := by
        simp only [randomInRange]
        nlinarith [h01.1]
      have h2 := round2_mono h1
      have h3 : round2 (1/10 : ℚ) = 1/10 := by norm_num [round2, round_eq]
      rw [h3] at h2
      exact h2
    · have h1 : randomInRange (rand (3*i)) (1/10) (9/10) ≤ 9/10 := by
        simp only [randomInRange]
        nlinarith [h01.2]
      have h2 := round2_mono h1
      have h3 : round2 (9/10 : ℚ) = 9/10 := by norm_num [round2, round_eq]
      rw [h3] at h2
      exact h2

/-- C8 witness: three draws with the constant stream 1/2 over the
concrete range with temperature bounds [0.1, 0.9]. -/
theorem c8_parameter_sampler_shape_and_bounds_witness :
    (generateParameterCombinations exampleRange 3 (fun _ => 1/2)).length = 3 ∧
    (∀ p ∈ generateParameterCombinations exampleRange 3 (fun _ => 1/2),
      1/10 ≤ p.temperature ∧ p.temperature ≤ 9/10) :=
  ⟨(c8_parameter_sampler_shape_and_bounds exampleRange 3 (fun _ => 1/2) (by norm_num)
      (by norm_num) (fun _ => ⟨by norm_num, by norm_num⟩)).1,
   (c8_parameter_sampler_shape_and_bounds exampleRange 3 (fun _ => 1/2) (by norm_num)
      (by norm_num) (fun _ => ⟨by norm_num, by norm_num⟩)).2.2.2 rfl rfl⟩
